import Mathlib

/-!
Shallow embedding of the order-status workflow and the session/identity cache
of the laserpro_operator repository.

Order side (src/src/services/admin-orders.ts and the operator-jobs service
embedded in src/src/components/AuthModal.tsx): each write operation is a
Supabase `update` of one order row; we embed the update payload as a pure
function on an `Order` record.  `new Date().toISOString()` is passed in as an
explicit `now : String` argument.  The store-error branch of each operation
only rethrows the upstream message and performs the same write when the store
succeeds, so the success path is embedded as a total function.

Auth side (src/src/lib/auth.ts): the module-level mutable variables become an
explicit `AuthState`, and `getCurrentUser` becomes a state transformer that
additionally reports which upstream lookups (session, database) it performed.
-/

namespace LaserPro

/-- Order lifecycle status, from the `OrderStatus` union type in
src/src/services/admin-orders.ts. -/
inductive OrderStatus
  | pending
  | confirmation_pending
  | in_production
  | cutting
  | post_processing
  | quality_check
  | packaging
  | shipped
  | delivered
  | cancelled
deriving DecidableEq, Repr

/-- Production statuses an operator can request, from the `ProductionStatus`
union type in the operator-jobs service. -/
inductive ProductionStatus
  | cutting
  | post_processing
  | quality_check
  | packaging
deriving DecidableEq, Repr

/-- The order status a production status writes into the `status` column. -/
def ProductionStatus.toOrderStatus : ProductionStatus → OrderStatus
  | .cutting => .cutting
  | .post_processing => .post_processing
  | .quality_check => .quality_check
  | .packaging => .packaging

/-- The mutable columns of an order row touched by the write operations
(subset of the `OrderDetails` interface in src/src/services/admin-orders.ts;
the read-only display fields are omitted). -/
structure Order where
  id : String
  status : OrderStatus
  operator_notes : Option String
  payment_proof_file_id : Option String
  payment_proof_uploaded_at : Option String
  payment_confirmed_by : Option String
  payment_confirmed_at : Option String
  assigned_operator_id : Option String
  assigned_at : Option String
  production_started_at : Option String
  production_completed_at : Option String
  shipped_at : Option String
  tracking_number : Option String
  tracking_url : Option String
  status_updated_by : Option String
  status_updated_at : Option String
deriving DecidableEq, Repr

/-- JavaScript truthiness of an optional string argument: `if (notes) ...`
is false for `undefined` and for the empty string. -/
def strTruthy : Option String → Bool
  | none => false
  | some s => !s.isEmpty

/-- approvePayment (src/src/services/admin-orders.ts lines 142-157): update
payload `{status, payment_confirmed_by, payment_confirmed_at, status_updated_by}`. -/
def approvePayment (o : Order) (adminId : String) (now : String) : Order :=
  { o with
    status := .in_production
    payment_confirmed_by := some adminId
    payment_confirmed_at := some now
    status_updated_by := some adminId }

/-- rejectPayment (src/src/services/admin-orders.ts lines 162-178): update
payload `{status, operator_notes, status_updated_by, payment_proof_file_id,
payment_proof_uploaded_at}`. -/
def rejectPayment (o : Order) (adminId : String) (reason : String) : Order :=
  { o with
    status := .pending
    operator_notes := some ("Payment rejected: " ++ reason)
    status_updated_by := some adminId
    payment_proof_file_id := none
    payment_proof_uploaded_at := none }

/-- assignToOperator (src/src/services/admin-orders.ts lines 183-197). -/
def assignToOperator (o : Order) (operatorId adminId : String) (now : String) : Order :=
  { o with
    assigned_operator_id := some operatorId
    assigned_at := some now
    status_updated_by := some adminId }

/-- updateOrderStatus (src/src/services/admin-orders.ts lines 202-226): the
payload always carries `status` and `status_updated_by`, and carries
`operator_notes` only when `notes` is truthy. -/
def updateOrderStatus (o : Order) (newStatus : OrderStatus) (userId : String)
    (notes : Option String) : Order :=
  { o with
    status := newStatus
    status_updated_by := some userId
    operator_notes := if strTruthy notes then notes else o.operator_notes }

/-- cancelOrder (src/src/services/admin-orders.ts lines 328-342). -/
def cancelOrder (o : Order) (adminId : String) (reason : String) : Order :=
  { o with
    status := .cancelled
    operator_notes := some ("Cancelled by admin: " ++ reason)
    status_updated_by := some adminId }

/-- startProduction (operator-jobs service, lines 373-384 of the file
containing src/src/components/AuthModal.tsx). -/
def startProduction (o : Order) (operatorId : String) (now : String) : Order :=
  { o with
    status := .cutting
    production_started_at := some now
    status_updated_by := some operatorId }

/-- updateJobStatus (operator-jobs service, lines 389-415): writes the
requested production status, `status_updated_by`, optionally the notes, and
`production_completed_at` when moving to packaging. -/
def updateJobStatus (o : Order) (newStatus : ProductionStatus) (operatorId : String)
    (notes : Option String) (now : String) : Order :=
  { o with
    status := newStatus.toOrderStatus
    status_updated_by := some operatorId
    operator_notes := if strTruthy notes then notes else o.operator_notes
    production_completed_at :=
      if newStatus = .packaging then some now else o.production_completed_at }

/-- markReadyForShipping (operator-jobs service, lines 476-490). -/
def markReadyForShipping (o : Order) (operatorId : String) (now : String) : Order :=
  { o with
    status := .packaging
    production_completed_at := some now
    status_updated_by := some operatorId }

/-- shipOrder (operator-jobs service, lines 495-521): tracking fields are
included in the payload only when truthy. -/
def shipOrder (o : Order) (operatorId : String) (now : String)
    (trackingNumber trackingUrl : Option String) : Order :=
  { o with
    status := .shipped
    shipped_at := some now
    status_updated_by := some operatorId
    tracking_number := if strTruthy trackingNumber then trackingNumber else o.tracking_number
    tracking_url := if strTruthy trackingUrl then trackingUrl else o.tracking_url }

/-- The status filter of getAssignedJobs (operator-jobs service, lines
351-368): `.in('status', [cutting, post_processing, quality_check,
packaging, in_production])`. -/
def productionQueueStatuses : List OrderStatus :=
  [.cutting, .post_processing, .quality_check, .packaging, .in_production]

/-- getAssignedJobs: the rows returned by the operator job-queue query, which
filters on `assigned_operator_id = operatorId` and on the production
statuses.  The source additionally orders the rows by `assigned_at`
ascending, which permutes but never changes the returned set of rows. -/
def getAssignedJobs (orders : List Order) (operatorId : String) : List Order :=
  orders.filter fun o =>
    o.assigned_operator_id == some operatorId
      && productionQueueStatuses.contains o.status

/-- The §4.1 transition table of the specification, written from the spec so
the service-layer behaviour can be compared against it: edges
confirmation_pending→in_production, confirmation_pending→pending,
pending→cancelled, confirmation_pending→cancelled, in_production→cutting,
cutting→post_processing, post_processing→quality_check,
quality_check→packaging, packaging→shipped, shipped→delivered. -/
def specAllowedEdge : OrderStatus → OrderStatus → Bool
  | .confirmation_pending, .in_production => true
  | .confirmation_pending, .pending => true
  | .pending, .cancelled => true
  | .confirmation_pending, .cancelled => true
  | .in_production, .cutting => true
  | .cutting, .post_processing => true
  | .post_processing, .quality_check => true
  | .quality_check, .packaging => true
  | .packaging, .shipped => true
  | .shipped, .delivered => true
  | _, _ => false

/-- The `nextStatus` record of JobDetailsModal.tsx (lines 136-143): the single
forward step the operator modal offers for the current status; the record
lookup `nextStatus[job.status] || null` yields null for every other status. -/
def nextStatus : OrderStatus → Option ProductionStatus
  | .cutting => some .post_processing
  | .post_processing => some .quality_check
  | .quality_check => some .packaging
  | .packaging => none
  | _ => none

/-- The status-changing controls the admin OrderDetailsModal.tsx renders for
an order, as (from, to) edges (lines 481-531): Approve Payment and Reject
Payment at confirmation_pending, Start Cutting at in_production when an
operator is assigned, Mark as Shipped at packaging, Mark as Delivered at
shipped.  No control is rendered in any other state. -/
def adminOfferedEdges (o : Order) : List (OrderStatus × OrderStatus) :=
  (if o.status = .confirmation_pending then
    [(OrderStatus.confirmation_pending, OrderStatus.in_production),
     (OrderStatus.confirmation_pending, OrderStatus.pending)]
   else [])
  ++ (if o.status = .in_production ∧ o.assigned_operator_id ≠ none then
    [(OrderStatus.in_production, OrderStatus.cutting)]
   else [])
  ++ (if o.status = .packaging then
    [(OrderStatus.packaging, OrderStatus.shipped)]
   else [])
  ++ (if o.status = .shipped then
    [(OrderStatus.shipped, OrderStatus.delivered)]
   else [])

/-- A status-history row, from the `order_status_history` table read by
getOrderStatusHistory / getJobStatusHistory and rendered in the detail
modals. -/
structure HistoryEntry where
  order_id : String
  old_status : OrderStatus
  new_status : OrderStatus
  changed_by : String
  notes : Option String
  created_at : String
deriving DecidableEq, Repr

/-- Modelled from the spec: no code under src/ writes `order_status_history`
(the table is only read there); the append is performed by the store-side
part of the repository that is not among the provided sources.  Per the spec,
a successful transition atomically updates the order's status together with
`status_updated_by` / `status_updated_at` and appends one immutable Status
History Entry carrying the pre- and post-transition statuses. -/
def recordTransition (o : Order) (newStatus : OrderStatus) (actor : String)
    (notes : Option String) (now : String) (history : List HistoryEntry) :
    Order × List HistoryEntry :=
  ({ o with
      status := newStatus
      status_updated_by := some actor
      status_updated_at := some now },
   history ++ [{ order_id := o.id
                 old_status := o.status
                 new_status := newStatus
                 changed_by := actor
                 notes := notes
                 created_at := now }])

/-- A blank order row used to build concrete test orders. -/
def blankOrder : Order :=
  { id := "ord-1"
    status := .pending
    operator_notes := none
    payment_proof_file_id := none
    payment_proof_uploaded_at := none
    payment_confirmed_by := none
    payment_confirmed_at := none
    assigned_operator_id := none
    assigned_at := none
    production_started_at := none
    production_completed_at := none
    shipped_at := none
    tracking_number := none
    tracking_url := none
    status_updated_by := none
    status_updated_at := none }

/-- A concrete order sitting in `cutting`, assigned to operator op-A. -/
def cuttingOrder : Order :=
  { blankOrder with status := .cutting, assigned_operator_id := some "op-A" }

/-- A concrete order in `confirmation_pending` with a payment proof on file
and previously recorded operator notes. -/
def notedOrder : Order :=
  { blankOrder with
      status := .confirmation_pending
      operator_notes := some "Handle with care"
      payment_proof_file_id := some "file-9"
      payment_proof_uploaded_at := some "2025-01-18T09:00:00Z" }

/-- A concrete order already delivered. -/
def deliveredOrder : Order :=
  { blankOrder with status := .delivered }

/-- A concrete cancelled order. -/
def cancelledOrder : Order :=
  { blankOrder with status := .cancelled }

/-- User role union type from src/src/lib/auth.ts. -/
inductive UserRole
  | customer
  | admin
  | operator
deriving DecidableEq, Repr

/-- The `User` interface of src/src/lib/auth.ts. -/
structure User where
  id : String
  email : String
  full_name : Option String
  role : UserRole
deriving DecidableEq, Repr

/-- The parts of a Supabase session user read by getCurrentUser:
`session.user.id`, `session.user.email`, and the `user_metadata` fields. -/
structure AuthUser where
  id : String
  email : Option String
  metaFullName : Option String
  metaRole : Option UserRole
deriving DecidableEq, Repr

/-- A Supabase session as consumed by the auth module: only `session?.user`
is inspected. -/
structure Session where
  user : Option AuthUser
deriving DecidableEq, Repr

/-- The module-level mutable variables of src/src/lib/auth.ts (lines 12-24):
`currentUserCache` (user plus millisecond timestamp), `latestSession`,
`lastUserId`, `fetchInProgress` and `fetchPromise`.  A promise is identified
by a numeric id. -/
structure AuthState where
  currentUserCache : Option (Option User × Nat)
  latestSession : Option Session
  lastUserId : Option String
  fetchInProgress : Bool
  fetchPromise : Option Nat
deriving DecidableEq, Repr

/-- CACHE_DURATION = 30000 milliseconds (src/src/lib/auth.ts line 14). -/
def CACHE_DURATION : Nat := 30000

/-- Outcome of the database profile query raced against the 8-second
timeout: either the query returned at least one row (`ok` carries the first
row), or it errored / returned no rows, or the timeout won the race.  Both
failure shapes make getCurrentUser fall back to the session metadata.
Supabase query calls report failures through their `error` field rather than
by rejecting, so a thrown exception from the store is not modelled. -/
inductive DbResult
  | ok (u : User)
  | errorOrEmpty
  | timeout
deriving DecidableEq, Repr

/-- The upstream answers one fetch would observe: what
`supabase.auth.getSession()` returns and what the profile query returns. -/
structure AuthEnv where
  sessionResult : Option Session
  dbResult : DbResult
deriving DecidableEq, Repr

/-- How many session lookups and database profile lookups a call performed. -/
structure FetchEffects where
  sessionLookups : Nat
  dbLookups : Nat
deriving DecidableEq, Repr

/-- What a getCurrentUser call hands back to its caller: the already
outstanding promise, the cached value (synchronously), or a freshly fetched
value behind a new promise. -/
inductive CallResult
  | sharedInFlight (pid : Nat)
  | cached (u : Option User)
  | fetched (pid : Nat) (u : Option User)
deriving DecidableEq, Repr

/-- The metadata fallback identity built when the profile lookup fails or
returns nothing (src/src/lib/auth.ts lines 128-133 and 146-151): id and email
from the session token, role from `user_metadata.role` defaulting to
customer. -/
def fallbackUser (au : AuthUser) : User :=
  { id := au.id
    email := au.email.getD ""
    full_name := au.metaFullName
    role := au.metaRole.getD .customer }

/-- Session resolution inside the fetch (lines 97-110): use `latestSession`
when present, otherwise call `getSession()` (one session lookup).
`latestSession` is not written back. -/
def resolvedSession (s : AuthState) (env : AuthEnv) : Option Session × Nat :=
  match s.latestSession with
  | some sess => (some sess, 0)
  | none => (env.sessionResult, 1)

/-- The body of the fetch promise (lines 95-176): resolve the session; with
no session user, cache a null identity; otherwise query the profile once and
cache either the row or the metadata fallback.  The `finally` block resets
`fetchInProgress` and `fetchPromise`. -/
def runFetch (s : AuthState) (env : AuthEnv) (now : Nat) :
    Option User × AuthState × FetchEffects :=
  let resolved := resolvedSession s env
  match resolved.1.bind Session.user with
  | none =>
      (none,
       { s with
          currentUserCache := some (none, now)
          fetchInProgress := false
          fetchPromise := none },
       ⟨resolved.2, 0⟩)
  | some au =>
      let profile :=
        match env.dbResult with
        | .ok u => u
        | .errorOrEmpty => fallbackUser au
        | .timeout => fallbackUser au
      (some profile,
       { s with
          currentUserCache := some (some profile, now)
          fetchInProgress := false
          fetchPromise := none },
       ⟨resolved.2, 1⟩)

/-- Marking the fetch as in progress (lines 92-95) and running it; `pid` is
the identity of the freshly created promise. -/
def startFetch (s : AuthState) (env : AuthEnv) (now pid : Nat) :
    CallResult × AuthState × FetchEffects :=
  let s1 := { s with fetchInProgress := true, fetchPromise := some pid }
  let r := runFetch s1 env now
  (.fetched pid r.1, r.2.1, r.2.2)

/-- getCurrentUser after the in-flight guard: the cache check of lines 83-87
(`Date.now() - timestamp < CACHE_DURATION`) and, on a miss, the fetch. -/
def getCurrentUserBody (s : AuthState) (env : AuthEnv) (now pid : Nat) :
    CallResult × AuthState × FetchEffects :=
  match s.currentUserCache with
  | some c =>
      if now - c.2 < CACHE_DURATION then (.cached c.1, s, ⟨0, 0⟩)
      else startFetch s env now pid
  | none => startFetch s env now pid

/-- getCurrentUser (src/src/lib/auth.ts lines 73-179).  The guard of lines
77-80 returns the outstanding promise when `fetchInProgress && fetchPromise`
holds, before the cache is even consulted. -/
def getCurrentUser (s : AuthState) (env : AuthEnv) (now pid : Nat) :
    CallResult × AuthState × FetchEffects :=
  if s.fetchInProgress then
    match s.fetchPromise with
    | some p => (.sharedInFlight p, s, ⟨0, 0⟩)
    | none => getCurrentUserBody s env now pid
  else getCurrentUserBody s env now pid

/-- A sequence of getCurrentUser calls threading the module state and
accumulating the upstream lookups; each call carries its own environment,
clock reading and fresh promise id. -/
def iterateCalls (s : AuthState) : List (AuthEnv × Nat × Nat) →
    List CallResult × AuthState × FetchEffects
  | [] => ([], s, ⟨0, 0⟩)
  | (env, now, pid) :: rest =>
      let r := getCurrentUser s env now pid
      let rs := iterateCalls r.2.1 rest
      (r.1 :: rs.1, rs.2.1,
       ⟨r.2.2.sessionLookups + rs.2.2.sessionLookups,
        r.2.2.dbLookups + rs.2.2.dbLookups⟩)

/-- signOut (src/src/lib/auth.ts lines 62-68): after the provider call it
clears the cache and the stored session. -/
def signOut (s : AuthState) : AuthState :=
  { s with currentUserCache := none, latestSession := none }

/-- The user id carried by an auth-state event:
`session?.user?.id || null` (line 336). -/
def sessionUserId (session : Option Session) : Option String :=
  (session.bind Session.user).map AuthUser.id

/-- What the handler does with the registered callback: nothing, invoke it
with null, or invoke it with the result of a getCurrentUser call. -/
inductive CallbackArg
  | nullUser
  | result (r : CallResult)
deriving DecidableEq, Repr

/-- The onAuthStateChange handler (src/src/lib/auth.ts lines 329-359): store
the session, compare the event's user id with `lastUserId`; on a change clear
the cache, remember the new id and re-notify the callback (fetching the user
first when the session has one); on the same id leave cache and callback
untouched. -/
def authStateHandler (s : AuthState) (session : Option Session) (env : AuthEnv)
    (now pid : Nat) : AuthState × Option CallbackArg :=
  let s1 := { s with latestSession := session }
  if sessionUserId session = s.lastUserId then
    (s1, none)
  else
    let s2 := { s1 with currentUserCache := none, lastUserId := sessionUserId session }
    match session.bind Session.user with
    | some _ =>
        let r := getCurrentUser s2 env now pid
        (r.2.1, some (.result r.1))
    | none => (s2, some .nullUser)

/-- C1, counterexample: requesting the edge cutting→packaging, which is not
in the §4.1 table, through updateOrderStatus does not fail with an
IllegalTransition error and does not leave the status unchanged — the write
goes through and the order ends up in packaging. -/
theorem illegal_edge_request_is_written :
    specAllowedEdge .cutting .packaging = false
    ∧ (updateOrderStatus cuttingOrder .packaging "admin-1" none).status = .packaging
    ∧ (updateOrderStatus cuttingOrder .packaging "admin-1" none).status ≠ cuttingOrder.status := by
  refine ⟨rfl, rfl, ?_⟩
  decide

/-- C1, amended: the service-layer operations perform no transition
validation — updateOrderStatus and updateJobStatus write whatever status is
requested, for any edge; no IllegalTransition error exists.  Transition
legality is enforced only by the UI surfaces, which render status-change
controls solely for edges present in the §4.1 table (the operator modal's
next-status map and the admin modal's per-status buttons). -/
theorem service_layer_unvalidated_ui_edges_legal :
    (∀ (o : Order) (st : OrderStatus) (uid : String) (notes : Option String),
        (updateOrderStatus o st uid notes).status = st)
    ∧ (∀ (o : Order) (st : ProductionStatus) (op : String) (notes : Option String) (now : String),
        (updateJobStatus o st op notes now).status = st.toOrderStatus)
    ∧ (∀ (st : OrderStatus) (st' : ProductionStatus), nextStatus st = some st' →
        specAllowedEdge st st'.toOrderStatus = true)
    ∧ (∀ (o : Order) (e : OrderStatus × OrderStatus), e ∈ adminOfferedEdges o →
        e.1 = o.status ∧ specAllowedEdge e.1 e.2 = true) := by
  refine ⟨fun o st uid notes => rfl, fun o st op notes now => rfl, ?_, ?_⟩
  · intro st st' h
    cases st <;> cases st' <;> simp [nextStatus] at h <;> decide
  · intro o e he
    cases hst : o.status <;> cases hao : o.assigned_operator_id <;>
      simp [adminOfferedEdges, hst, hao] at he
    all_goals try rcases he with he | he
    all_goals try subst he
    all_goals exact ⟨by simp [hst], rfl⟩

/-- C1, witness for the amended theorem at concrete inputs: the admin modal
offers packaging→shipped on a packaging order and that edge is in the table;
the operator modal offers cutting→post_processing and the service write
applies it. -/
theorem service_layer_unvalidated_ui_edges_legal_witness :
    ((OrderStatus.packaging, OrderStatus.shipped).1
        = ({ blankOrder with status := .packaging } : Order).status
      ∧ specAllowedEdge .packaging .shipped = true)
    ∧ specAllowedEdge .cutting (ProductionStatus.post_processing).toOrderStatus = true :=
  ⟨service_layer_unvalidated_ui_edges_legal.2.2.2 { blankOrder with status := .packaging }
      (OrderStatus.packaging, OrderStatus.shipped) (by decide),
   service_layer_unvalidated_ui_edges_legal.2.2.1 .cutting .post_processing rfl⟩

/-- C2: the transition operation (store side modelled from the spec) appends
exactly one history entry whose old_status is the pre-transition status and
whose new_status is the post-transition status; all previously recorded
entries are left untouched. -/
theorem recordTransition_appends_one_immutable_entry (o : Order) (st : OrderStatus)
    (actor : String) (notes : Option String) (now : String) (history : List HistoryEntry) :
    (recordTransition o st actor notes now history).2
        = history ++ [{ order_id := o.id, old_status := o.status, new_status := st,
                        changed_by := actor, notes := notes, created_at := now }]
    ∧ (recordTransition o st actor notes now history).2.length = history.length + 1
    ∧ (recordTransition o st actor notes now history).2.take history.length = history
    ∧ (recordTransition o st actor notes now history).1.status = st := by
  refine ⟨rfl, by simp [recordTransition], ?_, rfl⟩
  simp [recordTransition, List.take_left]

/-- C3, counterexample: updateJobStatus performs no assignment check — a
transition requested by operator op-B on an order assigned to op-A is not
rejected with Unauthorized; the write goes through and records op-B as the
status updater. -/
theorem unassigned_operator_write_goes_through :
    cuttingOrder.assigned_operator_id = some "op-A"
    ∧ ("op-B" : String) ≠ "op-A"
    ∧ (updateJobStatus cuttingOrder .post_processing "op-B" none "2025-01-19T10:00:00Z").status
        = .post_processing
    ∧ (updateJobStatus cuttingOrder .post_processing "op-B" none
        "2025-01-19T10:00:00Z").status_updated_by = some "op-B" := by
  refine ⟨rfl, ?_, rfl, rfl⟩
  decide

/-- C3, amended: updateJobStatus applies the requested transition regardless
of the order's assigned_operator_id (no Unauthorized error is raised and the
assignment is not consulted); operator scoping exists only in the job-queue
query, which returns exclusively orders whose assigned_operator_id equals
the requesting operator's id. -/
theorem updateJobStatus_unchecked_queue_scoped :
    (∀ (o : Order) (st : ProductionStatus) (op : String) (notes : Option String) (now : String),
        (updateJobStatus o st op notes now).status = st.toOrderStatus
        ∧ (updateJobStatus o st op notes now).status_updated_by = some op
        ∧ (updateJobStatus o st op notes now).assigned_operator_id = o.assigned_operator_id)
    ∧ (∀ (orders : List Order) (opId : String),
        (getAssignedJobs orders opId).all
          (fun o => o.assigned_operator_id == some opId) = true) := by
  refine ⟨fun o st op notes now => ⟨rfl, rfl, rfl⟩, ?_⟩
  intro orders opId
  rw [List.all_eq_true]
  intro o ho
  rw [getAssignedJobs, List.mem_filter] at ho
  exact (Bool.and_eq_true _ _ |>.mp ho.2).1

/-- C4, counterexample: cancelOrder does not check the current status — an
order already delivered is cancelled rather than rejected, although
delivered→cancelled is not a table edge; and a cancelled order is not
terminal at the service layer — updateOrderStatus moves it back to pending. -/
theorem cancel_and_revive_both_unchecked :
    specAllowedEdge .delivered .cancelled = false
    ∧ (cancelOrder deliveredOrder "admin-1" "customer request").status = .cancelled
    ∧ (updateOrderStatus cancelledOrder .pending "admin-1" none).status = .pending :=
  ⟨rfl, rfl, rfl⟩

/-- C4, amended: cancelOrder writes cancelled from any state, and
updateOrderStatus can move a cancelled order to any status, so neither the
pending/confirmation_pending restriction nor terminality is enforced by the
service layer; they hold only at the UI, which renders no transition control
for a cancelled order (neither the admin modal nor the operator modal). -/
theorem cancellation_unchecked_terminality_ui_only :
    (∀ (o : Order) (adminId reason : String),
        (cancelOrder o adminId reason).status = .cancelled
        ∧ (cancelOrder o adminId reason).operator_notes
            = some ("Cancelled by admin: " ++ reason))
    ∧ (∀ (o : Order) (st : OrderStatus) (uid : String) (notes : Option String),
        o.status = .cancelled → (updateOrderStatus o st uid notes).status = st)
    ∧ (∀ o : Order, o.status = .cancelled →
        adminOfferedEdges o = [] ∧ nextStatus o.status = none) := by
  refine ⟨fun o adminId reason => ⟨rfl, rfl⟩, fun o st uid notes _ => rfl, ?_⟩
  intro o h
  exact ⟨by simp [adminOfferedEdges, h], by simp [h, nextStatus]⟩

/-- C4, witness: at the concrete cancelled order, updateOrderStatus still
writes the requested status and the admin modal offers no transition. -/
theorem cancellation_unchecked_terminality_ui_only_witness :
    (updateOrderStatus cancelledOrder .shipped "admin-1" none).status = .shipped
    ∧ adminOfferedEdges cancelledOrder = [] :=
  ⟨cancellation_unchecked_terminality_ui_only.2.1 cancelledOrder .shipped "admin-1" none rfl,
   (cancellation_unchecked_terminality_ui_only.2.2 cancelledOrder rfl).1⟩

/-- C5, counterexample: rejectPayment overwrites the order's notes instead
of appending — after rejecting with reason "blurry proof" an order whose
notes were "Handle with care", the notes are exactly the rejection message
and the previously recorded text no longer occurs in them. -/
theorem reject_overwrites_prior_notes :
    notedOrder.operator_notes = some "Handle with care"
    ∧ (rejectPayment notedOrder "admin-1" "blurry proof").operator_notes
        = some "Payment rejected: blurry proof"
    ∧ ¬ ("Handle with care".data <:+: ("Payment rejected: blurry proof").data) := by
  refine ⟨rfl, by decide, by decide⟩

/-- C5, amended: rejection sets the status to pending, clears the
payment-proof reference and its upload timestamp, and sets the notes to
exactly "Payment rejected: r", replacing (not preserving) any previously
recorded notes; the operation does not check that the order was in
confirmation_pending. -/
theorem rejectPayment_clears_proof_overwrites_notes (o : Order) (adminId reason : String) :
    (rejectPayment o adminId reason).status = .pending
    ∧ (rejectPayment o adminId reason).payment_proof_file_id = none
    ∧ (rejectPayment o adminId reason).payment_proof_uploaded_at = none
    ∧ (rejectPayment o adminId reason).operator_notes
        = some ("Payment rejected: " ++ reason)
    ∧ (rejectPayment o adminId reason).status_updated_by = some adminId :=
  ⟨rfl, rfl, rfl, rfl, rfl⟩

/-- C6, counterexample: approvePayment at a concrete transition time sets
status_updated_by but leaves status_updated_at untouched (here: still null),
not equal to the time of the transition. -/
theorem approve_leaves_status_updated_at_unset :
    notedOrder.status_updated_at = none
    ∧ (approvePayment notedOrder "admin-1" "2025-01-19T10:00:00Z").status = .in_production
    ∧ (approvePayment notedOrder "admin-1" "2025-01-19T10:00:00Z").status_updated_by
        = some "admin-1"
    ∧ (approvePayment notedOrder "admin-1" "2025-01-19T10:00:00Z").status_updated_at
        ≠ some "2025-01-19T10:00:00Z" := by
  refine ⟨rfl, rfl, rfl, ?_⟩
  decide

/-- C6, amended: every write operation sets status_updated_by to the acting
user, but none of them writes status_updated_at — each update payload omits
it, leaving the stored value unchanged. -/
theorem transitions_set_updated_by_never_updated_at (o : Order)
    (actor reason now : String) (st : OrderStatus) (pst : ProductionStatus)
    (notes tn tu : Option String) :
    ((approvePayment o actor now).status_updated_by = some actor
      ∧ (approvePayment o actor now).status_updated_at = o.status_updated_at)
    ∧ ((rejectPayment o actor reason).status_updated_by = some actor
      ∧ (rejectPayment o actor reason).status_updated_at = o.status_updated_at)
    ∧ ((cancelOrder o actor reason).status_updated_by = some actor
      ∧ (cancelOrder o actor reason).status_updated_at = o.status_updated_at)
    ∧ ((updateOrderStatus o st actor notes).status_updated_by = some actor
      ∧ (updateOrderStatus o st actor notes).status_updated_at = o.status_updated_at)
    ∧ ((updateJobStatus o pst actor notes now).status_updated_by = some actor
      ∧ (updateJobStatus o pst actor notes now).status_updated_at = o.status_updated_at)
    ∧ ((startProduction o actor now).status_updated_by = some actor
      ∧ (startProduction o actor now).status_updated_at = o.status_updated_at)
    ∧ ((markReadyForShipping o actor now).status_updated_by = some actor
      ∧ (markReadyForShipping o actor now).status_updated_at = o.status_updated_at)
    ∧ ((shipOrder o actor now tn tu).status_updated_by = some actor
      ∧ (shipOrder o actor now tn tu).status_updated_at = o.status_updated_at) :=
  ⟨⟨rfl, rfl⟩, ⟨rfl, rfl⟩, ⟨rfl, rfl⟩, ⟨rfl, rfl⟩,
   ⟨rfl, rfl⟩, ⟨rfl, rfl⟩, ⟨rfl, rfl⟩, ⟨rfl, rfl⟩⟩

/-- A concrete user profile row. -/
def userAda : User :=
  { id := "u-1", email := "ada@example.com", full_name := some "Ada", role := .admin }

/-- The session-token view of the same identity. -/
def authUserAda : AuthUser :=
  { id := "u-1", email := some "ada@example.com", metaFullName := some "Ada",
    metaRole := some .admin }

/-- Auth module state with a fresh cache entry written at t = 100 ms. -/
def freshCacheState : AuthState :=
  { currentUserCache := some (some userAda, 100)
    latestSession := none
    lastUserId := some "u-1"
    fetchInProgress := false
    fetchPromise := none }

/-- Auth module state with an empty cache but a stored session. -/
def missState : AuthState :=
  { currentUserCache := none
    latestSession := some { user := some authUserAda }
    lastUserId := some "u-1"
    fetchInProgress := false
    fetchPromise := none }

/-- Auth module state exactly as after module load. -/
def emptyAuthState : AuthState :=
  { currentUserCache := none
    latestSession := none
    lastUserId := none
    fetchInProgress := false
    fetchPromise := none }

/-- Auth module state with a fetch outstanding behind promise 3. -/
def inflightState : AuthState :=
  { currentUserCache := none
    latestSession := none
    lastUserId := none
    fetchInProgress := true
    fetchPromise := some 3 }

/-- An environment in which getSession finds no session and the profile
query fails or returns no rows. -/
def envDbFail : AuthEnv := { sessionResult := none, dbResult := .errorOrEmpty }

/-- C7: when no fetch is outstanding, a cache entry younger than the
30-second window is returned as-is, with no session and no database lookup;
on a cache miss (or expiry) the active session is resolved and the profile
queried exactly once, and a profile lookup that fails or returns nothing
yields the metadata fallback identity (id and email from the session token,
role from the metadata defaulting to customer) instead of failing the
caller. -/
theorem getCurrentUser_cache_then_fallback (s : AuthState) (env : AuthEnv) (now pid : Nat)
    (hflight : s.fetchInProgress = false) :
    (∀ (u : Option User) (ts : Nat), s.currentUserCache = some (u, ts) →
        now - ts < CACHE_DURATION →
        getCurrentUser s env now pid = (.cached u, s, ⟨0, 0⟩))
    ∧ (∀ (sess : Session) (au : AuthUser),
        (s.currentUserCache = none
          ∨ ∃ u ts, s.currentUserCache = some (u, ts) ∧ ¬ now - ts < CACHE_DURATION) →
        (resolvedSession s env).1 = some sess → sess.user = some au →
        (env.dbResult = .errorOrEmpty ∨ env.dbResult = .timeout) →
        (getCurrentUser s env now pid).1 = .fetched pid (some (fallbackUser au))
        ∧ (getCurrentUser s env now pid).2.2 = ⟨(resolvedSession s env).2, 1⟩) := by
  constructor
  · intro u ts hc hfresh
    simp [getCurrentUser, hflight, getCurrentUserBody, hc, hfresh]
  · intro sess au hmiss hsess hau hdb
    have hbody : getCurrentUser s env now pid = startFetch s env now pid := by
      rcases hmiss with hc | ⟨u, ts, hc, hstale⟩
      · simp [getCurrentUser, hflight, getCurrentUserBody, hc]
      · simp [getCurrentUser, hflight, getCurrentUserBody, hc, hstale]
    have hres : resolvedSession { s with fetchInProgress := true, fetchPromise := some pid } env
        = resolvedSession s env := rfl
    rcases hdb with hdb | hdb <;>
      simp [hbody, startFetch, runFetch, hres, hsess, hau, hdb]

/-- C7, witness: a fresh cache entry is served untouched with zero lookups,
and on a miss with a failing profile query the metadata fallback identity is
returned. -/
theorem getCurrentUser_cache_then_fallback_witness :
    getCurrentUser freshCacheState envDbFail 200 7
        = (.cached (some userAda), freshCacheState, ⟨0, 0⟩)
    ∧ (getCurrentUser missState envDbFail 200 7).1
        = .fetched 7 (some (fallbackUser authUserAda)) := by
  refine ⟨(getCurrentUser_cache_then_fallback freshCacheState envDbFail 200 7 rfl).1
      (some userAda) 100 rfl (by decide), ?_⟩
  exact ((getCurrentUser_cache_then_fallback missState envDbFail 200 7 rfl).2
      { user := some authUserAda } authUserAda (Or.inl rfl) rfl rfl (Or.inl rfl)).1

/-- C8: while a fetch is outstanding (the in-flight flag is set and a promise
is recorded), any sequence of further getCurrentUser calls returns that same
promise for every call, leaves the module state untouched, and performs zero
session and zero database lookups — so across all concurrent callers the
upstream round trip happens exactly once, in the single outstanding fetch. -/
theorem inflight_calls_share_promise (s : AuthState) (p : Nat)
    (calls : List (AuthEnv × Nat × Nat))
    (hin : s.fetchInProgress = true) (hp : s.fetchPromise = some p) :
    iterateCalls s calls
      = (calls.map fun _ => CallResult.sharedInFlight p, s, ⟨0, 0⟩) := by
  induction calls with
  | nil => simp [iterateCalls]
  | cons c rest ih =>
      obtain ⟨env, now, pid⟩ := c
      have h1 : getCurrentUser s env now pid = (.sharedInFlight p, s, ⟨0, 0⟩) := by
        simp [getCurrentUser, hin, hp]
      simp [iterateCalls, h1, ih]

/-- C8, witness: three callers arriving during one outstanding fetch all
receive promise 3 and cause no further lookups. -/
theorem inflight_calls_share_promise_witness :
    iterateCalls inflightState [(envDbFail, 10, 4), (envDbFail, 11, 5), (envDbFail, 12, 6)]
      = ([.sharedInFlight 3, .sharedInFlight 3, .sharedInFlight 3], inflightState, ⟨0, 0⟩) :=
  inflight_calls_share_promise inflightState 3 _ rfl rfl

/-- C9: signOut clears the cache (and the stored session); an auth-state
event whose user id differs from the last observed one clears the cache and
re-notifies the listener — never from the stale cache — while an event
carrying the same user id (a token refresh) leaves the cache intact, only
stores the session, and does not invoke the listener callback. -/
theorem cache_invalidated_on_identity_change_only (s : AuthState) :
    ((signOut s).currentUserCache = none ∧ (signOut s).latestSession = none)
    ∧ (∀ (session : Option Session) (env : AuthEnv) (now pid : Nat),
        sessionUserId session = s.lastUserId →
        authStateHandler s session env now pid = ({ s with latestSession := session }, none))
    ∧ (∀ (session : Option Session) (env : AuthEnv) (now pid : Nat),
        sessionUserId session ≠ s.lastUserId → session.bind Session.user = none →
        (authStateHandler s session env now pid).1.currentUserCache = none
        ∧ (authStateHandler s session env now pid).2 = some .nullUser)
    ∧ (∀ (session : Option Session) (env : AuthEnv) (now pid : Nat) (v : Option User),
        sessionUserId session ≠ s.lastUserId → s.fetchInProgress = false →
        (authStateHandler s session env now pid).2
          ≠ some (.result (.cached v))) := by
  refine ⟨⟨rfl, rfl⟩, ?_, ?_, ?_⟩
  · intro session env now pid heq
    simp [authStateHandler, heq]
  · intro session env now pid hne hnou
    simp [authStateHandler, if_neg hne, hnou]
  · intro session env now pid v hne hflight
    simp only [authStateHandler, if_neg hne]
    rcases hsu : session.bind Session.user with _ | au
    · simp
    · simp [getCurrentUser, hflight, getCurrentUserBody, startFetch]

/-- C9, witness: a token-refresh event for the already observed user id
leaves state and listener untouched; a sign-out event for a cached identity
clears the cache, and the re-notification never comes from the stale cache. -/
theorem cache_invalidated_on_identity_change_only_witness :
    authStateHandler missState (some { user := some authUserAda }) envDbFail 200 7
        = ({ missState with latestSession := some { user := some authUserAda } }, none)
    ∧ (authStateHandler freshCacheState none envDbFail 200 7).1.currentUserCache = none
    ∧ (authStateHandler freshCacheState none envDbFail 200 7).2
        ≠ some (.result (.cached (some userAda))) :=
  ⟨(cache_invalidated_on_identity_change_only missState).2.1 _ envDbFail 200 7 (by decide),
   ((cache_invalidated_on_identity_change_only freshCacheState).2.2.1 none envDbFail 200 7
      (by decide) rfl).1,
   (cache_invalidated_on_identity_change_only freshCacheState).2.2.2 none envDbFail 200 7
      (some userAda) (by decide) rfl⟩

/-- C10: a fetch that resolves with no active session caches a null identity
stamped with the current time, and every later call inside the 30-second
window is answered null from the cache with zero lookups — even when a
session (with a user) has meanwhile been stored without an auth-state event
clearing the cache. -/
theorem null_identity_negatively_cached (s : AuthState) (env env2 : AuthEnv)
    (now now2 pid pid2 : Nat)
    (hflight : s.fetchInProgress = false)
    (hcache : s.currentUserCache = none)
    (hsess : s.latestSession = none)
    (henv : env.sessionResult = none) :
    getCurrentUser s env now pid
      = (.fetched pid none,
         { s with currentUserCache := some (none, now), fetchInProgress := false,
                  fetchPromise := none },
         ⟨1, 0⟩)
    ∧ (∀ sess2 : Option Session, now2 - now < CACHE_DURATION →
        getCurrentUser
            { s with currentUserCache := some (none, now), latestSession := sess2,
                     fetchInProgress := false, fetchPromise := none }
            env2 now2 pid2
          = (.cached none,
             { s with currentUserCache := some (none, now), latestSession := sess2,
                      fetchInProgress := false, fetchPromise := none },
             ⟨0, 0⟩)) := by
  constructor
  · simp [getCurrentUser, hflight, getCurrentUserBody, hcache, startFetch, runFetch,
      resolvedSession, hsess, henv]
  · intro sess2 hfresh
    simp [getCurrentUser, getCurrentUserBody, hfresh]

/-- C10, witness: after a no-session fetch at t = 1000 ms, a call at
t = 5000 ms with a user-bearing session meanwhile stored still answers null
from the cache with zero lookups. -/
theorem null_identity_negatively_cached_witness :
    getCurrentUser emptyAuthState envDbFail 1000 1
      = (.fetched 1 none, { emptyAuthState with currentUserCache := some (none, 1000) },
         ⟨1, 0⟩)
    ∧ getCurrentUser
        { emptyAuthState with
            currentUserCache := some (none, 1000)
            latestSession := some { user := some authUserAda } } envDbFail 5000 2
      = (.cached none,
         { emptyAuthState with
             currentUserCache := some (none, 1000)
             latestSession := some { user := some authUserAda } },
         ⟨0, 0⟩) := by
  refine ⟨(null_identity_negatively_cached emptyAuthState envDbFail envDbFail 1000 5000 1 2
      rfl rfl rfl rfl).1, ?_⟩
  exact (null_identity_negatively_cached emptyAuthState envDbFail envDbFail 1000 5000 1 2
      rfl rfl rfl rfl).2 (some { user := some authUserAda }) (by decide)

end LaserPro
